import Mathlib

/-!
Verification of the task-list service in `src/main.py` (FastAPI + SQLModel).

The program keeps one table of todo items. Three handlers touch it:
`get_all_todos` (GET /todos), `add_todo` (POST /todos) and `delete_todo`
(DELETE /todos/{todo_id}). We embed the table as a list of rows together
with the engine's primary-key counter, and each handler as a function from
request input and store state to a response and the next store state.
-/

namespace ToyApi

/-- Mirrors `class TodoItem(SQLModel, table=True)` in `src/main.py`:
`id: Optional[int] = Field(default=None, primary_key=True)`, `title: str`,
`is_done: bool = False`. The same class is both the table row and the
request/response body, so `id` is an `Option` (absent until the store
fills it in). -/
structure TodoItem where
  id : Option Nat
  title : String
  is_done : Bool
deriving DecidableEq

/-- A raw JSON creation payload as it arrives on the wire: any of the three
fields of `TodoItem` may be absent. -/
structure RawCreate where
  id : Option Nat
  title : Option String
  is_done : Option Bool
deriving DecidableEq

/-- Error responses the service can produce: `httpException` mirrors
`HTTPException(status_code=..., detail=...)` raised in `delete_todo`;
`validationError` is the framework's 422 reply to an invalid body;
`integrityError` is the database rejecting a duplicate primary key
(surfaced as a server error). -/
inductive HttpError where
  | httpException (status : Nat) (detail : String)
  | validationError (status : Nat)
  | integrityError
deriving DecidableEq

/-- The persistent state: the rows of the `todoitem` table in insertion
order, plus the engine's next auto-assigned primary key. -/
structure Store where
  rows : List TodoItem
  nextId : Nat
deriving DecidableEq

/-- The empty table right after `SQLModel.metadata.create_all(engine)`;
integer primary keys start at 1. -/
def initialStore : Store := Store.mk [] 1

/-- The primary keys currently present in the table. -/
def rowIds (s : Store) : List Nat := s.rows.filterMap (fun r => r.id)

/-- Handler `get_all_todos`: `select(TodoItem)` then `.all()` — every row of
the table, in store order. -/
def get_all_todos (s : Store) : List TodoItem := s.rows

/-- Handler `add_todo`: `session.add(item); session.commit();
session.refresh(item)`. The parsed body `item` is inserted as is. When the
client supplied an `id` that collides with an existing primary key the
INSERT violates the primary-key constraint and the transaction is rolled
back. When `id` is absent the engine assigns one.
Modelled from the spec (the engine's key generator is not in `src/`):
store-assigned ids are unique and never reused after deletion, so the
engine keeps a counter `nextId` that every insert pushes past the inserted
key. -/
def add_todo (item : TodoItem) (s : Store) : Except HttpError TodoItem × Store :=
  match item.id with
  | some i =>
      if i ∈ rowIds s then
        (Except.error HttpError.integrityError, s)
      else
        (Except.ok item, Store.mk (s.rows ++ [item]) (max s.nextId (i + 1)))
  | none =>
      let assigned := TodoItem.mk (some s.nextId) item.title item.is_done
      (Except.ok assigned, Store.mk (s.rows ++ [assigned]) (s.nextId + 1))

/-- Modelled from the spec: the framework's request-body validation for the
`item: TodoItem` parameter of `add_todo` (that parsing layer is FastAPI
code, not in `src/`). A payload missing the required `title` is rejected
with a 422 client error before the handler runs; otherwise the payload is
parsed into a `TodoItem`, keeping a client-supplied `id` (the `id` field
is part of the body model) and defaulting `is_done` to `false` when
omitted (from `is_done: bool = False`). -/
def parseBody (p : RawCreate) : Except HttpError TodoItem :=
  match p.title with
  | none => Except.error (HttpError.validationError 422)
  | some t => Except.ok (TodoItem.mk p.id t (p.is_done.getD false))

/-- POST /todos end to end: body validation, then `add_todo`. -/
def post_todos (p : RawCreate) (s : Store) : Except HttpError TodoItem × Store :=
  match parseBody p with
  | Except.error e => (Except.error e, s)
  | Except.ok item => add_todo item s

/-- Handler `delete_todo`: `session.get(TodoItem, todo_id)` looks the row up
by primary key; if absent raise `HTTPException(404, "Item not found")`,
otherwise `session.delete(item); session.commit()` removes the row with
that key. -/
def delete_todo (todo_id : Nat) (s : Store) : Except HttpError String × Store :=
  match s.rows.find? (fun r => r.id == some todo_id) with
  | none => (Except.error (HttpError.httpException 404 "Item not found"), s)
  | some _ =>
      (Except.ok "Deleted successfully",
        Store.mk (s.rows.filter (fun r => !(r.id == some todo_id))) s.nextId)

/-- Runs a sequence of creation requests, stopping at the first failure;
used to state listing-after-N-creations properties. -/
def runCreates : List RawCreate → Store → Except HttpError Store
  | [], s => Except.ok s
  | p :: ps, s =>
      match post_todos p s with
      | (Except.ok _, s1) => runCreates ps s1
      | (Except.error e, _) => Except.error e

/-- Python `str.startswith` on the underlying character sequences, as used
in `DATABASE_URL.startswith("postgres://")`. -/
def pyStartswith (s pat : String) : Bool := pat.data.isPrefixOf s.data

/-- Python `str.replace(pat, repl, 1)`: replace the first occurrence of
`pat` (scanning left to right), leaving everything else unchanged. -/
def replaceFirstList : List Char → List Char → List Char → List Char
  | [], _, _ => []
  | c :: cs, pat, repl =>
      if pat.isPrefixOf (c :: cs) then repl ++ (c :: cs).drop pat.length
      else c :: replaceFirstList cs pat repl

/-- The default when the environment variable is unset:
`os.environ.get("DATABASE_URL", "sqlite:///./local_database.db")`. -/
def defaultDatabaseUrl : String := "sqlite:///./local_database.db"

/-- The connection-string computation of `src/main.py` lines 10-14, as a
function of the optional environment value: take the environment value or
the sqlite default, then rewrite a leading `postgres://` to
`postgresql://` via `replace(..., ..., 1)`. -/
def databaseUrl (env : Option String) : String :=
  let url := env.getD defaultDatabaseUrl
  if pyStartswith url "postgres://" then
    String.mk (replaceFirstList url.data "postgres://".data "postgresql://".data)
  else url

/-! ### Basic lemmas about the store operations -/

theorem mem_rowIds_iff {s : Store} {i : Nat} :
    i ∈ rowIds s ↔ ∃ r ∈ s.rows, r.id = some i := by
  simp [rowIds, List.mem_filterMap]

theorem find?_id_eq_none {s : Store} {i : Nat} (h : i ∉ rowIds s) :
    s.rows.find? (fun r => r.id == some i) = none := by
  rw [List.find?_eq_none]
  intro r hr hbeq
  exact h (mem_rowIds_iff.mpr ⟨r, hr, by simpa using hbeq⟩)

theorem replaceFirstList_of_leading (l pat repl : List Char)
    (hne : pat ≠ []) (h : pat.isPrefixOf l = true) :
    replaceFirstList l pat repl = repl ++ l.drop pat.length := by
  cases l with
  | nil =>
      cases pat with
      | nil => exact absurd rfl hne
      | cons a as => simp [List.isPrefixOf] at h
  | cons c cs => simp [replaceFirstList, h]

/-- Anatomy of a successful POST /todos: the title was present, the new row
is appended, its `is_done` is the payload's with default `false`, and its
`id` is either the engine's `nextId` (payload without id) or the
client-supplied id, which then was free. -/
theorem post_ok_cases {p : RawCreate} {s : Store} {task : TodoItem} {s' : Store}
    (h : post_todos p s = (Except.ok task, s')) :
    ∃ t, p.title = some t ∧ task.title = t ∧ task.is_done = p.is_done.getD false ∧
      s'.rows = s.rows ++ [task] ∧
      ((p.id = none ∧ task.id = some s.nextId ∧ s'.nextId = s.nextId + 1) ∨
       (∃ j, p.id = some j ∧ task.id = some j ∧ j ∉ rowIds s ∧
         s'.nextId = max s.nextId (j + 1))) := by
  rcases p with ⟨pid, ptitle, pdone⟩
  cases ptitle with
  | none => simp [post_todos, parseBody] at h
  | some t =>
      refine ⟨t, rfl, ?_⟩
      cases pid with
      | none =>
          simp only [post_todos, parseBody, add_todo] at h
          obtain ⟨h1, h2⟩ := Prod.mk.injEq .. ▸ h
          replace h1 := Except.ok.inj h1
          subst h1
          subst h2
          exact ⟨rfl, rfl, rfl, Or.inl ⟨rfl, rfl, rfl⟩⟩
      | some j =>
          by_cases hj : j ∈ rowIds s
          · simp [post_todos, parseBody, add_todo, hj] at h
          · simp only [post_todos, parseBody, add_todo, if_neg hj] at h
            obtain ⟨h1, h2⟩ := Prod.mk.injEq .. ▸ h
            replace h1 := Except.ok.inj h1
            subst h1
            subst h2
            exact ⟨rfl, rfl, rfl, Or.inr ⟨j, rfl, rfl, hj, rfl⟩⟩

/-- Each successful creation appends exactly one row. -/
theorem post_ok_rows {p : RawCreate} {s : Store} {task : TodoItem} {s' : Store}
    (h : post_todos p s = (Except.ok task, s')) :
    s'.rows = s.rows ++ [task] := by
  obtain ⟨t, _, _, _, hrows, _⟩ := post_ok_cases h
  exact hrows

/-- A run of N successful creations grows the table by exactly N rows. -/
theorem runCreates_length {ps : List RawCreate} : ∀ {s0 s : Store},
    runCreates ps s0 = Except.ok s → s.rows.length = s0.rows.length + ps.length := by
  induction ps with
  | nil =>
      intro s0 s h
      simp only [runCreates] at h
      cases h
      simp
  | cons p ps ih =>
      intro s0 s h
      simp only [runCreates] at h
      cases hpost : post_todos p s0 with
      | mk res s1 =>
          rw [hpost] at h
          cases res with
          | error e => simp at h
          | ok task =>
              have hr := post_ok_rows hpost
              have := ih h
              rw [this, hr]
              simp
              omega

/-! ### Claims -/

/-- C2: for every store state and every integer `id` with no row of that
`id` in the store, `delete_todo` signals NotFound as a 404 with detail
"Item not found" and leaves the store unchanged, so a listing after the
call equals the listing before it. -/
theorem c2_delete_missing_is_404_no_effect (s : Store) (i : Nat) (h : i ∉ rowIds s) :
    delete_todo i s = (Except.error (HttpError.httpException 404 "Item not found"), s) ∧
    get_all_todos (delete_todo i s).2 = get_all_todos s := by
  have hf := find?_id_eq_none h
  constructor
  · simp [delete_todo, hf]
  · simp [delete_todo, hf]

/-- Witness for C2: deleting the never-created id 999999 from a one-row
store returns the 404 error and leaves the listing unchanged. -/
theorem c2_delete_missing_is_404_no_effect_witness :
    delete_todo 999999 (Store.mk [TodoItem.mk (some 1) "a" false] 2) =
      (Except.error (HttpError.httpException 404 "Item not found"),
        Store.mk [TodoItem.mk (some 1) "a" false] 2) ∧
    get_all_todos (delete_todo 999999 (Store.mk [TodoItem.mk (some 1) "a" false] 2)).2 =
      get_all_todos (Store.mk [TodoItem.mk (some 1) "a" false] 2) :=
  c2_delete_missing_is_404_no_effect _ 999999 (by decide)

/-- C7: starting from the empty store, creating a Task with payload
title "buy milk" (no id, no is_done) and then listing yields exactly one
record, with title "buy milk", `is_done = false`, and the server-assigned
integer id 1. -/
theorem c7_create_then_list_round_trip :
    post_todos (RawCreate.mk none (some "buy milk") none) initialStore =
      (Except.ok (TodoItem.mk (some 1) "buy milk" false),
        Store.mk [TodoItem.mk (some 1) "buy milk" false] 2) ∧
    get_all_todos (post_todos (RawCreate.mk none (some "buy milk") none) initialStore).2 =
      [TodoItem.mk (some 1) "buy milk" false] :=
  ⟨rfl, rfl⟩

/-- C9: the connection string is a pure function of the environment
configuration: unset gives the local sqlite file default; a configured
string starting with the legacy alias `postgres://` has exactly that
leading prefix rewritten to `postgresql://` (the remaining 11-th-character
onward suffix is kept verbatim); every other configured string is used
unchanged. -/
theorem c9_database_url_normalization :
    databaseUrl none = defaultDatabaseUrl ∧
    (∀ s : String, pyStartswith s "postgres://" = true →
      (databaseUrl (some s)).data = "postgresql://".data ++ s.data.drop 11) ∧
    (∀ s : String, pyStartswith s "postgres://" = false → databaseUrl (some s) = s) := by
  refine ⟨by decide, ?_, ?_⟩
  · intro s hs
    have h1 : replaceFirstList s.data "postgres://".data "postgresql://".data
        = "postgresql://".data ++ s.data.drop ("postgres://".data).length :=
      replaceFirstList_of_leading _ _ _ (by decide) hs
    have hlen : ("postgres://".data).length = 11 := by decide
    rw [hlen] at h1
    have h2 : databaseUrl (some s) =
        String.mk (replaceFirstList s.data "postgres://".data "postgresql://".data) := by
      simp [databaseUrl, hs]
    rw [h2]
    exact h1
  · intro s hs
    simp [databaseUrl, hs]

/-- Witness for C9: a legacy `postgres://` URL is rewritten to
`postgresql://` with the remainder kept, and a non-matching URL is used
unchanged. -/
theorem c9_database_url_normalization_witness :
    (databaseUrl (some "postgres://db/x")).data =
      "postgresql://".data ++ "postgres://db/x".data.drop 11 ∧
    databaseUrl (some "mysql://db") = "mysql://db" :=
  ⟨c9_database_url_normalization.2.1 "postgres://db/x" (by decide),
   c9_database_url_normalization.2.2 "mysql://db" (by decide)⟩

/-- C4: for every creation payload that omits `is_done`, the created and
returned Task has `is_done = false`, and that Task is what was persisted. -/
theorem c4_is_done_defaults_false (p : RawCreate) (s : Store) (task : TodoItem) (s' : Store)
    (hdone : p.is_done = none) (h : post_todos p s = (Except.ok task, s')) :
    task.is_done = false ∧ task ∈ get_all_todos s' := by
  obtain ⟨t, _, _, hd, hrows, _⟩ := post_ok_cases h
  refine ⟨?_, ?_⟩
  · rw [hd, hdone]
    rfl
  · rw [get_all_todos, hrows]
    simp

/-- Witness for C4: creating with a payload that omits `is_done` on the
empty store yields a Task with `is_done = false` stored in the table. -/
theorem c4_is_done_defaults_false_witness :
    (TodoItem.mk (some 1) "a" false).is_done = false ∧
    TodoItem.mk (some 1) "a" false ∈
      get_all_todos (Store.mk [TodoItem.mk (some 1) "a" false] 2) :=
  c4_is_done_defaults_false (RawCreate.mk none (some "a") none) initialStore
    (TodoItem.mk (some 1) "a" false) (Store.mk [TodoItem.mk (some 1) "a" false] 2) rfl rfl

/-- C5: a creation request whose payload is missing the required `title`
fails with the 422 validation error and has no side effect on the store
(Modelled from the spec: the validation layer is FastAPI code outside
`src/`). -/
theorem c5_missing_title_422_no_effect (p : RawCreate) (s : Store) (hmissing : p.title = none) :
    post_todos p s = (Except.error (HttpError.validationError 422), s) ∧
    get_all_todos (post_todos p s).2 = get_all_todos s := by
  constructor <;> simp [post_todos, parseBody, hmissing]

/-- Witness for C5: the empty payload on a one-row store is rejected with
422 and the store keeps its row. -/
theorem c5_missing_title_422_no_effect_witness :
    post_todos (RawCreate.mk none none none) (Store.mk [TodoItem.mk (some 1) "a" false] 2) =
      (Except.error (HttpError.validationError 422),
        Store.mk [TodoItem.mk (some 1) "a" false] 2) ∧
    get_all_todos (post_todos (RawCreate.mk none none none)
        (Store.mk [TodoItem.mk (some 1) "a" false] 2)).2 =
      get_all_todos (Store.mk [TodoItem.mk (some 1) "a" false] 2) :=
  c5_missing_title_422_no_effect (RawCreate.mk none none none)
    (Store.mk [TodoItem.mk (some 1) "a" false] 2) rfl

/-- C6: listing on the empty store returns the empty sequence, and listing
after N successful creations (and no deletions) returns exactly N
records. -/
theorem c6_listing_counts_creations :
    get_all_todos initialStore = [] ∧
    ∀ (ps : List RawCreate) (s : Store), runCreates ps initialStore = Except.ok s →
      (get_all_todos s).length = ps.length := by
  refine ⟨rfl, ?_⟩
  intro ps s h
  have hlen := runCreates_length h
  simpa [get_all_todos, initialStore] using hlen

/-- Witness for C6: two successful creations starting from the empty store
give a listing of exactly two records. -/
theorem c6_listing_counts_creations_witness :
    (get_all_todos (Store.mk
      [TodoItem.mk (some 1) "a" false, TodoItem.mk (some 2) "b" true] 3)).length =
      [RawCreate.mk none (some "a") none, RawCreate.mk none (some "b") (some true)].length :=
  c6_listing_counts_creations.2
    [RawCreate.mk none (some "a") none, RawCreate.mk none (some "b") (some true)]
    (Store.mk [TodoItem.mk (some 1) "a" false, TodoItem.mk (some 2) "b" true] 3) rfl

/-- C10: for every store state and every `id` present in the store,
`delete_todo` succeeds and removes exactly the rows carrying that `id`:
the subsequent listing is the previous listing with those rows filtered
out, every other row kept verbatim (same `id`, `title`, `is_done`, same
order). -/
theorem c10_delete_frame (s : Store) (i : Nat) (h : i ∈ rowIds s) :
    (delete_todo i s).1 = Except.ok "Deleted successfully" ∧
    get_all_todos (delete_todo i s).2 =
      (get_all_todos s).filter (fun r => !(r.id == some i)) := by
  obtain ⟨r, hr, hid⟩ := mem_rowIds_iff.mp h
  cases hf : s.rows.find? (fun r => r.id == some i) with
  | none =>
      rw [List.find?_eq_none] at hf
      exact absurd (by simp [hid]) (hf r hr)
  | some r0 =>
      constructor <;> simp [delete_todo, hf, get_all_todos]

/-- Witness for C10: deleting id 1 from a two-row store keeps the other row
unchanged and removes only the row with id 1. -/
theorem c10_delete_frame_witness :
    (delete_todo 1 (Store.mk
      [TodoItem.mk (some 1) "a" false, TodoItem.mk (some 2) "b" true] 3)).1 =
      Except.ok "Deleted successfully" ∧
    get_all_todos (delete_todo 1 (Store.mk
      [TodoItem.mk (some 1) "a" false, TodoItem.mk (some 2) "b" true] 3)).2 =
      (get_all_todos (Store.mk
        [TodoItem.mk (some 1) "a" false, TodoItem.mk (some 2) "b" true] 3)).filter
        (fun r => !(r.id == some 1)) :=
  c10_delete_frame (Store.mk
    [TodoItem.mk (some 1) "a" false, TodoItem.mk (some 2) "b" true] 3) 1 (by decide)

/-- C3: deleting the `id` of a just-created Task succeeds with the message
"Deleted successfully" and removes that row from the subsequent listing;
a second delete of the same `id` (with no intervening creation) returns
the 404 NotFound error. -/
theorem c3_delete_created_then_404 (s : Store) (p : RawCreate) (task : TodoItem)
    (s' : Store) (i : Nat)
    (hpost : post_todos p s = (Except.ok task, s')) (hid : task.id = some i) :
    (delete_todo i s').1 = Except.ok "Deleted successfully" ∧
    (∀ r ∈ get_all_todos (delete_todo i s').2, r.id ≠ some i) ∧
    (delete_todo i (delete_todo i s').2).1 =
      Except.error (HttpError.httpException 404 "Item not found") := by
  have hrows := post_ok_rows hpost
  have htask : task ∈ s'.rows := by
    rw [hrows]
    simp
  cases hf : s'.rows.find? (fun r => r.id == some i) with
  | none =>
      rw [List.find?_eq_none] at hf
      exact absurd (by simp [hid]) (hf task htask)
  | some r0 =>
      have h2 : (delete_todo i s').2 =
          Store.mk (s'.rows.filter (fun x => !(x.id == some i))) s'.nextId := by
        simp [delete_todo, hf]
      refine ⟨by simp [delete_todo, hf], ?_, ?_⟩
      · intro r hr
        rw [h2] at hr
        have hpred := (List.mem_filter.mp hr).2
        simpa using hpred
      · have hnone2 : (s'.rows.filter (fun x => !(x.id == some i))).find?
            (fun r => r.id == some i) = none := by
          rw [List.find?_eq_none]
          intro r hr
          have hpred := (List.mem_filter.mp hr).2
          simp at hpred
          simp [hpred]
        rw [h2]
        simp [delete_todo, hnone2]

/-- Witness for C3: after creating a task (id 1) on the empty store, the
first delete succeeds and the second delete returns the 404 error. -/
theorem c3_delete_created_then_404_witness :
    (delete_todo 1 (Store.mk [TodoItem.mk (some 1) "a" false] 2)).1 =
      Except.ok "Deleted successfully" ∧
    (delete_todo 1 (delete_todo 1 (Store.mk [TodoItem.mk (some 1) "a" false] 2)).2).1 =
      Except.error (HttpError.httpException 404 "Item not found") :=
  ⟨(c3_delete_created_then_404 initialStore (RawCreate.mk none (some "a") none)
      (TodoItem.mk (some 1) "a" false) (Store.mk [TodoItem.mk (some 1) "a" false] 2)
      1 rfl rfl).1,
   (c3_delete_created_then_404 initialStore (RawCreate.mk none (some "a") none)
      (TodoItem.mk (some 1) "a" false) (Store.mk [TodoItem.mk (some 1) "a" false] 2)
      1 rfl rfl).2.2⟩

/-- Counterexample to C1 as stated: a client-supplied `id` is not ignored.
On the empty store, the payload with `id = 7`, `title = "x"` is created
with id 7 and persisted under id 7, while the same payload without an id
gets the store-assigned id 1; the two responses differ. -/
theorem c1_client_id_counterexample :
    (post_todos (RawCreate.mk (some 7) (some "x") none) initialStore).1 =
      Except.ok (TodoItem.mk (some 7) "x" false) ∧
    rowIds (post_todos (RawCreate.mk (some 7) (some "x") none) initialStore).2 = [7] ∧
    (post_todos (RawCreate.mk none (some "x") none) initialStore).1 =
      Except.ok (TodoItem.mk (some 1) "x" false) ∧
    TodoItem.mk (some 7) "x" false ≠ TodoItem.mk (some 1) "x" false :=
  ⟨rfl, rfl, rfl, by decide⟩

/-- C1 amended: a client-supplied `id` is used, not ignored (the insert
fails on a collision); for payloads without an `id`, the store assigns the
id, and the returned Task carries the non-null id `nextId`, which is not
held by any existing record. -/
theorem c1_amended_id_assignment (s : Store) (p : RawCreate) (t : String)
    (hbd : ∀ j ∈ rowIds s, j < s.nextId) (htitle : p.title = some t) :
    (p.id = none →
      (post_todos p s).1 =
        Except.ok (TodoItem.mk (some s.nextId) t (p.is_done.getD false)) ∧
      s.nextId ∉ rowIds s) ∧
    (∀ j, p.id = some j → j ∉ rowIds s →
      (post_todos p s).1 =
        Except.ok (TodoItem.mk (some j) t (p.is_done.getD false))) := by
  constructor
  · intro hid
    constructor
    · simp [post_todos, parseBody, htitle, add_todo, hid]
    · intro hmem
      exact absurd (hbd _ hmem) (lt_irrefl _)
  · intro j hid hj
    simp [post_todos, parseBody, htitle, add_todo, hid, hj]

/-- Witness for C1's amended theorem: on the empty store a payload without
an id is created with the store-assigned id 1. -/
theorem c1_amended_id_assignment_witness :
    (post_todos (RawCreate.mk none (some "x") none) initialStore).1 =
      Except.ok (TodoItem.mk (some 1) "x" false) :=
  ((c1_amended_id_assignment initialStore (RawCreate.mk none (some "x") none) "x"
    (by decide) rfl).1 rfl).1

/-! ### Reachable states and the id-uniqueness invariant (claim C8) -/

/-- The store invariant: the primary keys in the table are pairwise
distinct and all lie below the engine's counter. -/
def StoreInv (s : Store) : Prop :=
  (rowIds s).Nodup ∧ ∀ i ∈ rowIds s, i < s.nextId

/-- One request against the store: a creation with an arbitrary payload or
a deletion of an arbitrary id. -/
inductive Step : Store → Store → Prop where
  | create (p : RawCreate) (s : Store) : Step s (post_todos p s).2
  | remove (i : Nat) (s : Store) : Step s (delete_todo i s).2

/-- States reachable from the freshly created table by any request
sequence. -/
inductive Reachable : Store → Prop where
  | init : Reachable initialStore
  | next {s s' : Store} : Reachable s → Step s s' → Reachable s'

theorem storeInv_init : StoreInv initialStore := by
  constructor <;> simp [initialStore, rowIds, StoreInv]

theorem storeInv_append (s : Store) (r : TodoItem) (n i : Nat)
    (hnd : (rowIds s).Nodup) (hid : r.id = some i) (hfresh : i ∉ rowIds s)
    (hlt : ∀ j ∈ rowIds s, j < n) (hin : i < n) :
    StoreInv (Store.mk (s.rows ++ [r]) n) := by
  have hids : rowIds (Store.mk (s.rows ++ [r]) n) = rowIds s ++ [i] := by
    simp [rowIds, List.filterMap_append, hid]
  constructor
  · rw [hids, List.nodup_append]
    exact ⟨hnd, List.nodup_singleton i, by rw [List.disjoint_singleton]; exact hfresh⟩
  · rw [hids]
    intro j hj
    rcases List.mem_append.mp hj with hj | hj
    · exact hlt j hj
    · rw [List.mem_singleton] at hj
      subst hj
      exact hin

theorem post_preserves_inv (p : RawCreate) (s : Store) (h : StoreInv s) :
    StoreInv (post_todos p s).2 := by
  obtain ⟨hnd, hbd⟩ := h
  rcases p with ⟨pid, ptitle, pdone⟩
  cases ptitle with
  | none => exact ⟨hnd, hbd⟩
  | some t =>
      cases pid with
      | none =>
          refine storeInv_append s _ (s.nextId + 1) s.nextId hnd rfl ?_ ?_ (Nat.lt_succ_self _)
          · intro hmem
            exact absurd (hbd _ hmem) (lt_irrefl _)
          · intro j hj
            exact Nat.lt_succ_of_lt (hbd j hj)
      | some j =>
          by_cases hj : j ∈ rowIds s
          · simp only [post_todos, parseBody, add_todo, if_pos hj]
            exact ⟨hnd, hbd⟩
          · simp only [post_todos, parseBody, add_todo, if_neg hj]
            refine storeInv_append s _ (max s.nextId (j + 1)) j hnd rfl hj ?_ ?_
            · intro k hk
              exact lt_of_lt_of_le (hbd k hk) (le_max_left _ _)
            · exact lt_of_lt_of_le (Nat.lt_succ_self j) (le_max_right _ _)

theorem delete_preserves_inv (i : Nat) (s : Store) (h : StoreInv s) :
    StoreInv (delete_todo i s).2 := by
  cases hf : s.rows.find? (fun r => r.id == some i) with
  | none =>
      have h2 : (delete_todo i s).2 = s := by simp [delete_todo, hf]
      rw [h2]
      exact h
  | some r0 =>
      have h2 : (delete_todo i s).2 =
          Store.mk (s.rows.filter (fun x => !(x.id == some i))) s.nextId := by
        simp [delete_todo, hf]
      rw [h2]
      have hsub : (s.rows.filter (fun x => !(x.id == some i))).Sublist s.rows :=
        List.filter_sublist _
      have hsubIds := List.Sublist.filterMap (fun r => r.id) hsub
      constructor
      · exact List.Nodup.sublist hsubIds h.1
      · intro k hk
        exact h.2 k (hsubIds.subset hk)

theorem post_snd_nextId_mono (p : RawCreate) (s : Store) :
    s.nextId ≤ (post_todos p s).2.nextId := by
  rcases p with ⟨pid, ptitle, pdone⟩
  cases ptitle with
  | none => exact le_refl _
  | some t =>
      cases pid with
      | none =>
          simp only [post_todos, parseBody, add_todo]
          omega
      | some j =>
          by_cases hj : j ∈ rowIds s
          · simp only [post_todos, parseBody, add_todo, if_pos hj]
            exact le_refl _
          · simp only [post_todos, parseBody, add_todo, if_neg hj]
            omega

theorem delete_snd_nextId (i : Nat) (s : Store) :
    (delete_todo i s).2.nextId = s.nextId := by
  cases hf : s.rows.find? (fun r => r.id == some i) <;> simp [delete_todo, hf]

theorem step_preserves_inv : ∀ {s s' : Store}, Step s s' → StoreInv s → StoreInv s'
  | _, _, Step.create p s, h => post_preserves_inv p s h
  | _, _, Step.remove i s, h => delete_preserves_inv i s h

theorem step_nextId_mono : ∀ {s s' : Store}, Step s s' → s.nextId ≤ s'.nextId
  | _, _, Step.create p s => post_snd_nextId_mono p s
  | _, _, Step.remove i s => le_of_eq (delete_snd_nextId i s).symm

theorem reachable_inv {s : Store} (h : Reachable s) : StoreInv s := by
  induction h with
  | init => exact storeInv_init
  | next _ hs ih => exact step_preserves_inv hs ih

/-- Counterexample to C8 as stated: ids of deleted Tasks can be reused.
Create a task (store assigns id 1), delete it, then create with a payload
carrying `id = 1`: the insert succeeds and the new Task is persisted under
the previously deleted id 1. -/
theorem c8_reuse_counterexample :
    post_todos (RawCreate.mk none (some "a") none) initialStore =
      (Except.ok (TodoItem.mk (some 1) "a" false),
        Store.mk [TodoItem.mk (some 1) "a" false] 2) ∧
    delete_todo 1 (Store.mk [TodoItem.mk (some 1) "a" false] 2) =
      (Except.ok "Deleted successfully", Store.mk [] 2) ∧
    (post_todos (RawCreate.mk (some 1) (some "b") none) (Store.mk [] 2)).1 =
      Except.ok (TodoItem.mk (some 1) "b" false) ∧
    rowIds (post_todos (RawCreate.mk (some 1) (some "b") none) (Store.mk [] 2)).2 = [1] :=
  ⟨rfl, rfl, rfl, rfl⟩

/-- C8 amended: in every reachable state the persisted ids are pairwise
distinct and below the engine counter; the counter never decreases across
requests, and a creation without a client-supplied id is assigned exactly
the counter value, which no existing record holds — so store-assigned ids
are never reused. (A client-supplied id, however, is accepted whenever it
is currently free, and may equal a previously deleted id.) -/
theorem c8_amended_unique_ids :
    (∀ s : Store, Reachable s → (rowIds s).Nodup ∧ ∀ i ∈ rowIds s, i < s.nextId) ∧
    (∀ s s' : Store, Step s s' → s.nextId ≤ s'.nextId) ∧
    (∀ (s : Store) (p : RawCreate) (task : TodoItem) (s' : Store),
      (∀ i ∈ rowIds s, i < s.nextId) → p.id = none →
      post_todos p s = (Except.ok task, s') →
      task.id = some s.nextId ∧ s.nextId ∉ rowIds s) := by
  refine ⟨fun s h => reachable_inv h, ?_, ?_⟩
  · intro s s' hs
    exact step_nextId_mono hs
  · intro s p task s' hbd hid hpost
    obtain ⟨t, _, _, _, _, hcase⟩ := post_ok_cases hpost
    rcases hcase with ⟨_, htask, _⟩ | ⟨j, hj, _⟩
    · exact ⟨htask, fun hmem => absurd (hbd _ hmem) (lt_irrefl _)⟩
    · simp [hid] at hj

/-- Witness for C8's amended theorem: the initial store is reachable and
satisfies uniqueness, and a creation step keeps the counter monotone. -/
theorem c8_amended_unique_ids_witness :
    (rowIds initialStore).Nodup ∧
    initialStore.nextId ≤ (post_todos (RawCreate.mk none (some "a") none) initialStore).2.nextId :=
  ⟨(c8_amended_unique_ids.1 initialStore Reachable.init).1,
   c8_amended_unique_ids.2.1 initialStore _
     (Step.create (RawCreate.mk none (some "a") none) initialStore)⟩

end ToyApi
